import Mathlib

/-!
Verification of the streaming transcribe/translate pipeline (`src/app.py`).

The pipeline is shallowly embedded:

* `handle_events` — the Result Aggregator (`MyEventHandler.handle_events`,
  app.py lines 32–44): a fold over the inbound event list mirroring the
  `async for` / nested `for` loops of the source.
* `basic_transcribe` — the Session Orchestrator (app.py lines 47–68):
  Transport open, the Pacer (`write_chunks`), the Aggregator, and the final
  `list(filter(None, response))`.
* `transcribe_fn` — the top-level operation (app.py lines 104–130):
  credential injection into the process environment, the language tables,
  and the conditional translation / synthesis collaborator calls, recorded
  in an explicit call log.

The inbound event stream is modelled as a finite list of events together
with a close kind: a normal close ends the `async for` iteration, an
abnormal close (stream fault) raises out of the loop, which the source does
not catch.  External collaborators (AWS Translate, Polly) are modelled as
function parameters; their invocations are recorded in a call log.
-/

namespace App

/-- One recognition alternative: carries its transcript text
(data model `Alternative`, consumed at app.py line 41–42). -/
structure Alternative where
  transcript : String
deriving DecidableEq, Repr

/-- One recognition result: a flag saying whether the result is still
subject to revision, and an ordered list of alternatives
(data model `Result`, consumed at app.py lines 39–42). -/
structure Result where
  isPartial : Bool
  alternatives : List Alternative
deriving DecidableEq, Repr

/-- One inbound transcript event, carrying zero or more results
(`event.transcript.results` at app.py line 38). -/
structure TranscriptEvent where
  results : List Result
deriving DecidableEq, Repr

/-- How the inbound event sequence terminates: a normal close ends the
`async for` loop; an abnormal close is a stream fault the transport raises
when the next event is awaited. -/
inductive CloseKind
  | normal
  | abnormal
deriving DecidableEq, Repr

/-- The inbound event sequence as the Aggregator observes it: the events
delivered in order, followed by the way the sequence terminates. -/
structure InboundStream where
  events : List TranscriptEvent
  close : CloseKind
deriving DecidableEq, Repr

/-- Errors of the session: transport-open failures
(`AuthenticationError` / `ConnectionError`) and an abnormal close of the
inbound stream. -/
inductive Err
  | authentication
  | connection
  | streamInterrupted
deriving DecidableEq, Repr

/-- The innermost loop of `handle_events` (app.py line 41–42):
`text = text + alt.transcript`. -/
def altStep (text : String) (alt : Alternative) : String :=
  text ++ alt.transcript

/-- The middle loop body of `handle_events` (app.py lines 40–42):
`if not result.is_partial: for alt in result.alternatives: ...`. -/
def resultStep (text : String) (result : Result) : String :=
  if !result.isPartial then result.alternatives.foldl altStep text
  else text

/-- The outer loop body of `handle_events` (app.py lines 38–42):
`results = event.transcript.results; for result in results: ...`. -/
def eventStep (text : String) (event : TranscriptEvent) : String :=
  event.results.foldl resultStep text

/-- The text accumulated by `MyEventHandler.handle_events` (app.py lines
36–42) over a list of events: starting from `""`, for each event, for each
result, if the result is not partial, append the transcript of EVERY
alternative of that result.  This mirrors the loop nest of the source exactly,
including the inner `for alt in result.alternatives` loop. -/
def handleEventsText (events : List TranscriptEvent) : String :=
  events.foldl eventStep ""

namespace MyEventHandler

/-- `MyEventHandler.handle_events` (app.py lines 32–44) run against an
inbound stream.  On a normal close the `async for` loop ends and the
accumulated text is returned; on an abnormal close the transport raises
from the `await` of the next event, and since the loop body has no
`try`/`except`, the exception propagates and the local `text` is lost. -/
def handle_events (s : InboundStream) : Except Err String :=
  match s.close with
  | CloseKind.normal => Except.ok (handleEventsText s.events)
  | CloseKind.abnormal => Except.error Err.streamInterrupted

end MyEventHandler

/-- Concatenation of a list of strings, in order, with no separators. -/
def strConcat : List String → String
  | [] => ""
  | s :: rest => s ++ strConcat rest

/-- The finalized (non-partial) results of an event sequence, in arrival
order, order within an event preserved. -/
def finalizedResults (events : List TranscriptEvent) : List Result :=
  List.flatten (events.map (fun e => e.results.filter (fun r => !r.isPartial)))

/-- All alternative texts of one result, in listed order. -/
def resultAllText (r : Result) : String :=
  strConcat (r.alternatives.map Alternative.transcript)

/-- The text a single event contributes to the transcript: all alternative
texts of its finalized results. -/
def eventText (e : TranscriptEvent) : String :=
  strConcat ((e.results.filter (fun r => !r.isPartial)).map resultAllText)

/-- The transcript following the words of claims C1 and C2 (spec side,
for refinement comparison only): the text of the TOP (first) alternative
of each finalized
result, concatenated in arrival order.  A finalized result with no
alternatives contributes the empty string. -/
def specTopTranscript (events : List TranscriptEvent) : String :=
  strConcat ((finalizedResults events).map
    (fun r => (r.alternatives.headD (Alternative.mk "")).transcript))

/-- An audio chunk read from the source file, as a byte sequence. -/
abbrev AudioChunk := List Nat

/-- Observable effects and result of the Pacer coroutine `write_chunks`
(app.py lines 58–64): the chunks it sent to the outbound sub-channel in
file order, whether it signalled end-of-stream, and its Python return
value, which is `None`.  The real-time delay it inserts between chunks is
a wall-clock effect with no functional content and is not modelled. -/
structure PacerTrace where
  chunksWritten : List AudioChunk
  endStreamSignaled : Bool
  result : Option String
deriving DecidableEq, Repr

/-- `write_chunks` (app.py lines 58–64): reads the whole file in chunks,
sends every chunk, then calls `stream.input_stream.end_stream()`, and as a
Python coroutine with no `return` it returns `None`. -/
def write_chunks (audio : List AudioChunk) : PacerTrace :=
  { chunksWritten := audio, endStreamSignaled := true, result := none }

/-- `list(filter(None, response))` (app.py line 68): in Python,
`filter(None, ...)` keeps exactly the truthy elements, dropping `None` and
the empty string. -/
def pyFilterTruthy (l : List (Option String)) : List String :=
  l.filterMap (fun o =>
    match o with
    | none => none
    | some s => if s = "" then none else some s)

/-- Everything observable about one `basic_transcribe` session: its return
value (the filtered response list, or the propagated error), the chunks
the Pacer wrote, whether end-of-stream was signalled, and how many inbound
events were consumed. -/
structure SessionTrace where
  value : Except Err (List String)
  chunksWritten : List AudioChunk
  endStreamSignaled : Bool
  eventsConsumed : Nat
deriving Repr

/-- `basic_transcribe` (app.py lines 47–68).  The transport-open call
(`client.start_stream_transcription`, line 52) is modelled by its outcome
`openResult`: if it raises, the exception propagates before `write_chunks`
is defined or the handler is constructed, so no chunk is written and no
event is consumed.  Otherwise the Pacer and the Aggregator run
(`asyncio.gather`, line 67): `response = [None, text]` on success, and an
exception from `handle_events` propagates out of `gather`.  On success the
function returns `list(filter(None, response))` (line 68). -/
def basic_transcribe (audio : List AudioChunk)
    (openResult : Except Err InboundStream) : SessionTrace :=
  match openResult with
  | Except.error e =>
    { value := Except.error e, chunksWritten := [], endStreamSignaled := false,
      eventsConsumed := 0 }
  | Except.ok stream =>
    let pacer := write_chunks audio
    match MyEventHandler.handle_events stream with
    | Except.error e =>
      { value := Except.error e, chunksWritten := pacer.chunksWritten,
        endStreamSignaled := pacer.endStreamSignaled,
        eventsConsumed := stream.events.length }
    | Except.ok text =>
      { value := Except.ok (pyFilterTruthy [pacer.result, some text]),
        chunksWritten := pacer.chunksWritten,
        endStreamSignaled := pacer.endStreamSignaled,
        eventsConsumed := stream.events.length }

/-- The frozen AWS credentials of the ambient boto3 session
(app.py line 109). -/
structure Credentials where
  access_key : String
  secret_key : String
  token : String
deriving DecidableEq, Repr

/-- The process environment as `transcribe_fn` touches it: the three AWS
credential variables it writes (app.py lines 110–112), plus the rest of
`os.environ`, which it never modifies. -/
structure Env where
  AWS_ACCESS_KEY_ID : Option String
  AWS_SECRET_ACCESS_KEY : Option String
  AWS_SESSION_TOKEN : Option String
  other : String → Option String

/-- One collaborator invocation made by `transcribe_fn`: a call to the
Translate client (app.py lines 119–123) or to Polly (app.py line 128),
with the arguments passed. -/
inductive Call
  | translateCall (text src target : String)
  | pollyCall (text language_code voice_id engine : String)
deriving DecidableEq, Repr

/-- One entry of `TRANSLATE_LIST`: source and target language codes for
the Translate call. -/
structure TranslatePair where
  src : String
  target : String
deriving DecidableEq, Repr

/-- One entry of `POLLY_PARAM`: voice, language code and engine for the
Polly call. -/
structure PollyParam where
  voice_id : String
  language_code : String
  engine : String
deriving DecidableEq, Repr

/-- `LANGUAGE_LIST` (app.py line 19): UI label to transcription language
code; a missing key is a Python `KeyError`, modelled as `none`. -/
def LANGUAGE_LIST (label : String) : Option String :=
  if label = "日本語" then some "ja-JP"
  else if label = "英語" then some "en-US"
  else none

/-- `TRANSLATE_LIST` (app.py lines 20–23): transcription language code to
translation source/target pair. -/
def TRANSLATE_LIST (code : String) : Option TranslatePair :=
  if code = "ja-JP" then some { src := "ja", target := "en" }
  else if code = "en-US" then some { src := "en", target := "ja" }
  else none

/-- `POLLY_PARAM` (app.py lines 24–27): translation target code to the
synthesis voice/language/engine parameters. -/
def POLLY_PARAM (lang : String) : Option PollyParam :=
  if lang = "en" then some { voice_id := "Ruth", language_code := "en-US", engine := "generative" }
  else if lang = "ja" then some { voice_id := "Takumi", language_code := "ja-JP", engine := "neural" }
  else none

/-- Lines 114–130 of `transcribe_fn`: the `language` label is resolved via
`LANGUAGE_LIST`, the response list is joined into `transcribe_text`, the
Translate collaborator is called only when `len(transcribe_text) > 0`, and
the Polly collaborator only when `len(translate_text) > 0`, with the
parameters of `POLLY_PARAM` at the target code of the translation.  Returns the
triple `(transcribe_text, translate_text, polly_audio)` (`none` models a
`KeyError` escaping) together with the collaborator call log.  The
collaborators themselves are external and passed in as functions. -/
def transcribe_fn_body (language : String) (response : List String)
    (translateFn : String → String → String → String)
    (pollyFn : String → PollyParam → String) :
    Option (String × String × Option String) × List Call :=
  match LANGUAGE_LIST language with
  | none => (none, [])
  | some langCode =>
    let transcribe_text := strConcat response
    if transcribe_text.length > 0 then
      match TRANSLATE_LIST langCode with
      | none => (none, [])
      | some pair =>
        let translate_text := translateFn transcribe_text pair.src pair.target
        let calls₁ := [Call.translateCall transcribe_text pair.src pair.target]
        if translate_text.length > 0 then
          match POLLY_PARAM pair.target with
          | none => (none, calls₁)
          | some param =>
            (some (transcribe_text, translate_text, some (pollyFn translate_text param)),
              calls₁ ++ [Call.pollyCall translate_text param.language_code
                param.voice_id param.engine])
        else (some (transcribe_text, translate_text, none), calls₁)
    else (some (transcribe_text, "", none), [])

/-- The outcome of one `transcribe_fn` invocation: its returned triple
(`none` models an escaping exception), the process environment after the
call, and the collaborator call log. -/
structure TFnRun where
  output : Option (String × String × Option String)
  env : Env
  calls : List Call

/-- `transcribe_fn` (app.py lines 104–130).  Before anything else it
overwrites the three AWS credential environment variables with the ambient
frozen credentials of the ambient session (lines 109–112); the rest of the environment
is untouched.  Then it runs lines 114–130 (`transcribe_fn_body`) on the
`basic_transcribe` response list. -/
def transcribe_fn (language : String) (creds : Credentials) (response : List String)
    (translateFn : String → String → String → String)
    (pollyFn : String → PollyParam → String) (env0 : Env) : TFnRun :=
  let env1 : Env :=
    { env0 with
      AWS_ACCESS_KEY_ID := some creds.access_key
      AWS_SECRET_ACCESS_KEY := some creds.secret_key
      AWS_SESSION_TOKEN := some creds.token }
  let body := transcribe_fn_body language response translateFn pollyFn
  { output := body.1, env := env1, calls := body.2 }

/-- Whether a collaborator call is a Translate invocation. -/
def isTranslateCall : Call → Bool
  | Call.translateCall _ _ _ => true
  | _ => false

/-- Whether a collaborator call is a Polly invocation. -/
def isPollyCall : Call → Bool
  | Call.pollyCall _ _ _ _ => true
  | _ => false

/-- One event carrying a single finalized result with two alternatives. -/
def c1Events : List TranscriptEvent :=
  [⟨[⟨false, [⟨"first"⟩, ⟨"second"⟩]⟩]⟩]

/-- Two events: a finalized result with two alternatives, then one with a
single alternative. -/
def c2Events : List TranscriptEvent :=
  [⟨[⟨false, [⟨"x"⟩, ⟨"y"⟩]⟩]⟩, ⟨[⟨false, [⟨"z"⟩]⟩]⟩]

/-- A stream delivering one finalized result and then closing abnormally. -/
def c5Stream : InboundStream :=
  ⟨[⟨[⟨false, [⟨"Hello"⟩]⟩]⟩], CloseKind.abnormal⟩

/-- A stream with only one partial result, closing normally. -/
def partialOnlyStream : InboundStream :=
  ⟨[⟨[⟨true, [⟨"Hel"⟩]⟩]⟩], CloseKind.normal⟩

/-- A normally closing stream with one finalized result reading "hi". -/
def c9Stream : InboundStream :=
  ⟨[⟨[⟨false, [⟨"hi"⟩]⟩]⟩], CloseKind.normal⟩

/-- An environment with none of the AWS variables set. -/
def emptyEnv : Env :=
  { AWS_ACCESS_KEY_ID := none, AWS_SECRET_ACCESS_KEY := none,
    AWS_SESSION_TOKEN := none, other := fun _ => none }

/-- Concrete credentials used to instantiate theorems. -/
def exCreds : Credentials :=
  { access_key := "AK", secret_key := "SK", token := "TK" }

theorem strConcat_append (l₁ l₂ : List String) :
    strConcat (l₁ ++ l₂) = strConcat l₁ ++ strConcat l₂ := by
  induction l₁ with
  | nil => simp [strConcat]
  | cons s rest ih => simp [strConcat, ih, String.append_assoc]

theorem strConcat_flatten (L : List (List String)) :
    strConcat (List.flatten L) = strConcat (L.map strConcat) := by
  induction L with
  | nil => simp [strConcat]
  | cons l rest ih => simp [strConcat, strConcat_append, ih]

theorem alt_foldl_eq (alts : List Alternative) (t : String) :
    alts.foldl altStep t = t ++ strConcat (alts.map Alternative.transcript) := by
  induction alts generalizing t with
  | nil => simp [strConcat]
  | cons a rest ih => simp [altStep, strConcat, ih, String.append_assoc]

theorem result_foldl_eq (results : List Result) (t : String) :
    results.foldl resultStep t
      = t ++ strConcat ((results.filter (fun r => !r.isPartial)).map resultAllText) := by
  induction results generalizing t with
  | nil => simp [strConcat]
  | cons r rest ih =>
    rw [List.foldl_cons, ih]
    by_cases h : r.isPartial
    · simp [resultStep, h, List.filter_cons]
    · simp [resultStep, h, List.filter_cons, alt_foldl_eq, resultAllText, strConcat,
        String.append_assoc]

theorem event_foldl_eq (events : List TranscriptEvent) (t : String) :
    events.foldl eventStep t = t ++ strConcat (events.map eventText) := by
  induction events generalizing t with
  | nil => simp [strConcat]
  | cons e rest ih =>
    rw [List.foldl_cons, ih]
    simp [eventStep, result_foldl_eq, eventText, strConcat, String.append_assoc]

/-- The text of the Aggregator equals, per finalized result in arrival
order, the concatenation of ALL alternative texts of that result. -/
theorem handleEventsText_eq (events : List TranscriptEvent) :
    handleEventsText events = strConcat ((finalizedResults events).map resultAllText) := by
  rw [handleEventsText, event_foldl_eq, String.empty_append, finalizedResults,
    List.map_flatten, strConcat_flatten, List.map_map, List.map_map]
  rfl

theorem finalizedResults_nil_of_partial_only (events : List TranscriptEvent)
    (h : ∀ e ∈ events, ∀ r ∈ e.results, r.isPartial = true) :
    finalizedResults events = [] := by
  simp only [finalizedResults, List.flatten_eq_nil_iff]
  intro l hl
  rcases List.mem_map.mp hl with ⟨e, he, rfl⟩
  simp only [List.filter_eq_nil_iff]
  intro r hr
  simp [h e he r hr]


theorem str_length_pos (s : String) : 0 < s.length ↔ s ≠ "" := by
  cases s with
  | mk data => simp [String.length, String.ext_iff, List.length_pos_iff_ne_nil]

theorem strConcat_singleton (s : String) : strConcat [s] = s := by
  simp [strConcat, String.append_empty]

theorem pyFilterTruthy_pair (text : String) :
    pyFilterTruthy [none, some text] = if text = "" then [] else [text] := by
  by_cases h : text = "" <;> simp [pyFilterTruthy, h]

theorem handle_events_normal (s : InboundStream) (h : s.close = CloseKind.normal) :
    MyEventHandler.handle_events s = Except.ok (handleEventsText s.events) := by
  obtain ⟨events, close⟩ := s
  cases h
  rfl

theorem handle_events_abnormal (s : InboundStream) (h : s.close = CloseKind.abnormal) :
    MyEventHandler.handle_events s = Except.error Err.streamInterrupted := by
  obtain ⟨events, close⟩ := s
  cases h
  rfl

theorem LANGUAGE_LIST_mem (label code : String) (h : LANGUAGE_LIST label = some code) :
    code = "ja-JP" ∨ code = "en-US" := by
  unfold LANGUAGE_LIST at h
  split_ifs at h <;> simp_all

theorem transcribe_fn_body_spec (language langCode : String) (pair : TranslatePair)
    (param : PollyParam) (response : List String)
    (translateFn : String → String → String → String)
    (pollyFn : String → PollyParam → String)
    (h1 : LANGUAGE_LIST language = some langCode)
    (h2 : TRANSLATE_LIST langCode = some pair)
    (h3 : POLLY_PARAM pair.target = some param) :
    ∃ translate_text polly_audio,
      (transcribe_fn_body language response translateFn pollyFn).1
        = some (strConcat response, translate_text, polly_audio) ∧
      ((transcribe_fn_body language response translateFn pollyFn).2.countP isTranslateCall
        = if strConcat response = "" then 0 else 1) ∧
      ((transcribe_fn_body language response translateFn pollyFn).2.countP isPollyCall
        = if translate_text = "" then 0 else 1) ∧
      (strConcat response = "" → translate_text = "" ∧ polly_audio = none ∧
        (transcribe_fn_body language response translateFn pollyFn).2 = []) := by
  unfold transcribe_fn_body
  rw [h1]
  dsimp only
  by_cases ht : strConcat response = ""
  · have hlen : ¬ (strConcat response).length > 0 := by simp [ht]
    rw [if_neg hlen]
    refine ⟨"", none, ?_, ?_, ?_, ?_⟩ <;>
      simp [ht, List.countP_nil]
  · have hlen : (strConcat response).length > 0 := (str_length_pos _).mpr ht
    rw [if_pos hlen, h2]
    dsimp only
    by_cases h4 : translateFn (strConcat response) pair.src pair.target = ""
    · have hlen2 : ¬ (translateFn (strConcat response) pair.src pair.target).length > 0 := by
        simp [h4]
      rw [if_neg hlen2]
      refine ⟨translateFn (strConcat response) pair.src pair.target, none, ?_, ?_, ?_, ?_⟩ <;>
        simp [ht, h4, List.countP_cons, List.countP_nil, isTranslateCall, isPollyCall]
    · have hlen2 : (translateFn (strConcat response) pair.src pair.target).length > 0 :=
        (str_length_pos _).mpr h4
      rw [if_pos hlen2, h3]
      dsimp only
      refine ⟨translateFn (strConcat response) pair.src pair.target,
        some (pollyFn (translateFn (strConcat response) pair.src pair.target) param),
        ?_, ?_, ?_, ?_⟩ <;>
        simp [ht, h4, List.countP_cons, List.countP_nil, isTranslateCall, isPollyCall]

theorem body_polly_mem (language : String) (response : List String)
    (translateFn : String → String → String → String)
    (pollyFn : String → PollyParam → String) (t lc v e : String)
    (h : Call.pollyCall t lc v e ∈ (transcribe_fn_body language response translateFn pollyFn).2) :
    ∃ langCode pair param,
      LANGUAGE_LIST language = some langCode ∧
      TRANSLATE_LIST langCode = some pair ∧
      POLLY_PARAM pair.target = some param ∧
      lc = param.language_code ∧ v = param.voice_id ∧ e = param.engine := by
  unfold transcribe_fn_body at h
  cases hL : LANGUAGE_LIST language with
  | none => rw [hL] at h; simp at h
  | some langCode =>
    rw [hL] at h
    dsimp only at h
    by_cases hlen : (strConcat response).length > 0
    · rw [if_pos hlen] at h
      cases hT : TRANSLATE_LIST langCode with
      | none => rw [hT] at h; simp at h
      | some pair =>
        rw [hT] at h
        dsimp only at h
        by_cases hlen2 : (translateFn (strConcat response) pair.src pair.target).length > 0
        · rw [if_pos hlen2] at h
          cases hP : POLLY_PARAM pair.target with
          | none => rw [hP] at h; simp at h
          | some param =>
            rw [hP] at h
            dsimp only at h
            simp only [List.mem_append, List.mem_singleton, List.mem_cons,
              List.not_mem_nil, or_false] at h
            rcases h with h | h
            · exact absurd h (by simp)
            · obtain ⟨-, hlc, hv, he⟩ := Call.pollyCall.inj h
              exact ⟨langCode, pair, param, rfl, hT, hP, hlc, hv, he⟩
        · rw [if_neg hlen2] at h
          simp at h
    · rw [if_neg hlen] at h
      simp at h

/-- Claim C1 is false as stated: on `c1Events` (one finalized Result with
alternatives "first" and "second") the Aggregator produces "firstsecond",
while appending only the top alternative would produce "first" — the text
of the second Alternative does appear in the Transcript. -/
theorem claim_C1_counterexample :
    handleEventsText c1Events = "first" ++ "second" ∧
    specTopTranscript c1Events = "first" ∧
    handleEventsText c1Events ≠ specTopTranscript c1Events := by
  decide

/-- Claim C1 (amended): for every finalized (non-partial) Result in the
inbound event sequence, the Aggregator appends the text of EVERY
Alternative of that Result, in listed order — not only the first; the
Transcript is the concatenation, over finalized Results in arrival order,
of all their alternative texts, and partial Results contribute nothing. -/
theorem claim_C1_amended (events : List TranscriptEvent) :
    handleEventsText events = strConcat ((finalizedResults events).map resultAllText) :=
  handleEventsText_eq events

/-- Claim C2 is false as stated: on `c2Events` the top-alternative texts
are "x" and "z", so the claimed Transcript is "xz", but the Aggregator
produces "xyz" because it also appends the second alternative "y". -/
theorem claim_C2_counterexample :
    handleEventsText c2Events = "xyz" ∧ specTopTranscript c2Events = "xz" ∧
    handleEventsText c2Events ≠ specTopTranscript c2Events := by
  decide

/-- Claim C2 (amended): for every event sequence, the Transcript equals
the ordered concatenation of ALL alternative texts of the finalized
Results (texts appended in arrival order, order within an event and within
a Result preserved, no separators inserted), and re-running the
aggregation on the same fixed event sequence yields the same Transcript
(the Aggregator is a pure function of the event list). -/
theorem claim_C2_amended (events : List TranscriptEvent) :
    handleEventsText events
      = strConcat (List.flatten ((finalizedResults events).map
          (fun r => r.alternatives.map Alternative.transcript))) ∧
    handleEventsText events = handleEventsText events := by
  refine ⟨?_, rfl⟩
  rw [handleEventsText_eq, strConcat_flatten, List.map_map]
  rfl

/-- Claim C3: on every inbound sequence that closes normally and contains
no finalized Result — only partial Results, or no events at all — the
Aggregator returns the empty Transcript and no error. -/
theorem claim_C3 (s : InboundStream) (h1 : s.close = CloseKind.normal)
    (h2 : ∀ e ∈ s.events, ∀ r ∈ e.results, r.isPartial = true) :
    MyEventHandler.handle_events s = Except.ok "" := by
  have htext : handleEventsText s.events = "" := by
    rw [handleEventsText_eq, finalizedResults_nil_of_partial_only s.events h2]
    rfl
  rw [handle_events_normal s h1, htext]

theorem claim_C3_witness :
    MyEventHandler.handle_events partialOnlyStream = Except.ok "" :=
  claim_C3 partialOnlyStream rfl (by decide)

/-- Claim C4: for every invocation of `transcribe_fn` (on a language label
the UI can produce), the operation returns normally: the Translate
collaborator is called exactly once iff the transcript is non-empty, the
Polly collaborator is called exactly once iff the translated text is
non-empty, and an empty transcript is a valid non-error outcome with both
downstream calls skipped, an empty translation and no audio file. -/
theorem claim_C4 (language : String) (creds : Credentials) (response : List String)
    (translateFn : String → String → String → String)
    (pollyFn : String → PollyParam → String) (env0 : Env) (langCode : String)
    (h : LANGUAGE_LIST language = some langCode) :
    ∃ translate_text polly_audio,
      (transcribe_fn language creds response translateFn pollyFn env0).output
        = some (strConcat response, translate_text, polly_audio) ∧
      ((transcribe_fn language creds response translateFn pollyFn env0).calls.countP
          isTranslateCall = if strConcat response = "" then 0 else 1) ∧
      ((transcribe_fn language creds response translateFn pollyFn env0).calls.countP
          isPollyCall = if translate_text = "" then 0 else 1) ∧
      (strConcat response = "" → translate_text = "" ∧ polly_audio = none ∧
        (transcribe_fn language creds response translateFn pollyFn env0).calls = []) := by
  obtain ⟨pair, param, h2, h3⟩ :
      ∃ pair param, TRANSLATE_LIST langCode = some pair ∧
        POLLY_PARAM pair.target = some param := by
    rcases LANGUAGE_LIST_mem language langCode h with rfl | rfl
    · exact ⟨_, _, rfl, rfl⟩
    · exact ⟨_, _, rfl, rfl⟩
  simpa [transcribe_fn] using
    transcribe_fn_body_spec language langCode pair param response translateFn pollyFn h h2 h3

theorem claim_C4_witness :
    ∃ translate_text polly_audio,
      (transcribe_fn "日本語" exCreds ["こんにちは"] (fun _ _ _ => "hello")
          (fun _ _ => "audio.mp3") emptyEnv).output
        = some (strConcat ["こんにちは"], translate_text, polly_audio) ∧
      ((transcribe_fn "日本語" exCreds ["こんにちは"] (fun _ _ _ => "hello")
          (fun _ _ => "audio.mp3") emptyEnv).calls.countP isTranslateCall
        = if strConcat ["こんにちは"] = "" then 0 else 1) ∧
      ((transcribe_fn "日本語" exCreds ["こんにちは"] (fun _ _ _ => "hello")
          (fun _ _ => "audio.mp3") emptyEnv).calls.countP isPollyCall
        = if translate_text = "" then 0 else 1) ∧
      (strConcat ["こんにちは"] = "" → translate_text = "" ∧ polly_audio = none ∧
        (transcribe_fn "日本語" exCreds ["こんにちは"] (fun _ _ _ => "hello")
          (fun _ _ => "audio.mp3") emptyEnv).calls = []) :=
  claim_C4 "日本語" exCreds ["こんにちは"] (fun _ _ _ => "hello")
    (fun _ _ => "audio.mp3") emptyEnv "ja-JP" (by decide)

/-- Claim C5 is false as stated: on `c5Stream` the Aggregator has
accumulated the partial Transcript "Hello" when the inbound sequence
closes abnormally, but `handle_events` does not return it — the stream
fault propagates as an error. -/
theorem claim_C5_counterexample :
    handleEventsText c5Stream.events = "Hello" ∧
    MyEventHandler.handle_events c5Stream = Except.error Err.streamInterrupted ∧
    MyEventHandler.handle_events c5Stream ≠ Except.ok "Hello" := by
  refine ⟨by decide, rfl, ?_⟩
  simp [MyEventHandler.handle_events, c5Stream]

/-- Claim C5 (amended): if the inbound event sequence closes abnormally,
the Aggregator does not return the partial Transcript it accumulated;
the stream fault propagates out of `handle_events` (there is no exception
handler around the event loop), so `basic_transcribe` fails as a whole and
the partial Transcript is discarded. -/
theorem claim_C5_amended (s : InboundStream) (h : s.close = CloseKind.abnormal) :
    MyEventHandler.handle_events s = Except.error Err.streamInterrupted ∧
    ∀ audio : List AudioChunk,
      (basic_transcribe audio (Except.ok s)).value
        = Except.error Err.streamInterrupted := by
  have hh := handle_events_abnormal s h
  exact ⟨hh, fun audio => by simp [basic_transcribe, hh]⟩

theorem claim_C5_witness :
    MyEventHandler.handle_events c5Stream = Except.error Err.streamInterrupted ∧
    (basic_transcribe [] (Except.ok c5Stream)).value
      = Except.error Err.streamInterrupted :=
  ⟨(claim_C5_amended c5Stream rfl).1, (claim_C5_amended c5Stream rfl).2 []⟩

/-- Claim C6: if the transport-open call fails, `basic_transcribe`
propagates exactly that failure to its caller, the Pacer is never started
(no chunk written, no end-of-stream signal) and the Aggregator is never
started (no event consumed). -/
theorem claim_C6 (audio : List AudioChunk) (openResult : Except Err InboundStream)
    (e : Err) (h : openResult = Except.error e) :
    basic_transcribe audio openResult
      = { value := Except.error e, chunksWritten := [], endStreamSignaled := false,
          eventsConsumed := 0 } := by
  subst h
  rfl

theorem claim_C6_witness :
    basic_transcribe [[0, 1, 2]] (Except.error Err.authentication)
      = { value := Except.error Err.authentication, chunksWritten := [],
          endStreamSignaled := false, eventsConsumed := 0 } :=
  claim_C6 [[0, 1, 2]] (Except.error Err.authentication) Err.authentication rfl

/-- Claim C7: the supported-language table is exactly the bidirectional
pair ja-JP ⇄ en-US — ja-JP maps to translation source "ja" / target "en"
and en-US to source "en" / target "ja", there are no other entries, the
Polly parameters for "en" are the en-US voice (Ruth, generative) and for
"ja" the ja-JP voice (Takumi, neural), and every Polly call made by
`transcribe_fn` uses exactly the parameters of the target language of the
translation. -/
theorem claim_C7 :
    TRANSLATE_LIST "ja-JP" = some { src := "ja", target := "en" } ∧
    TRANSLATE_LIST "en-US" = some { src := "en", target := "ja" } ∧
    POLLY_PARAM "en"
      = some { voice_id := "Ruth", language_code := "en-US", engine := "generative" } ∧
    POLLY_PARAM "ja"
      = some { voice_id := "Takumi", language_code := "ja-JP", engine := "neural" } ∧
    (∀ code pair, TRANSLATE_LIST code = some pair →
      (code = "ja-JP" ∧ pair = { src := "ja", target := "en" }) ∨
      (code = "en-US" ∧ pair = { src := "en", target := "ja" })) ∧
    (∀ language creds response translateFn pollyFn env0 t lc v e,
      Call.pollyCall t lc v e
          ∈ (transcribe_fn language creds response translateFn pollyFn env0).calls →
      ∃ langCode pair param,
        LANGUAGE_LIST language = some langCode ∧
        TRANSLATE_LIST langCode = some pair ∧
        POLLY_PARAM pair.target = some param ∧
        lc = param.language_code ∧ v = param.voice_id ∧ e = param.engine) := by
  refine ⟨rfl, rfl, rfl, rfl, ?_, ?_⟩
  · intro code pair hp
    unfold TRANSLATE_LIST at hp
    split_ifs at hp <;> simp_all
  · intro language creds response translateFn pollyFn env0 t lc v e hmem
    exact body_polly_mem language response translateFn pollyFn t lc v e hmem

theorem claim_C7_witness :
    ∃ langCode pair param,
      LANGUAGE_LIST "日本語" = some langCode ∧
      TRANSLATE_LIST langCode = some pair ∧
      POLLY_PARAM pair.target = some param ∧
      "en-US" = param.language_code ∧ "Ruth" = param.voice_id ∧
      "generative" = param.engine :=
  claim_C7.2.2.2.2.2 "日本語" exCreds ["こんにちは"] (fun _ _ _ => "hello")
    (fun _ _ => "audio.mp3") emptyEnv "hello" "en-US" "Ruth" "generative" (by decide)

/-- Claim C9: on a normally closing stream, `basic_transcribe` returns a
list of strings from which `filter(None, ...)` has removed both the `None`
result of the Pacer task and an empty aggregated transcript, so the list never
contains the empty string (nor, by construction, `None`), it is empty when
no text was finalized, and joining it recovers the transcript text of the
Aggregator. -/
theorem claim_C9 (audio : List AudioChunk) (s : InboundStream)
    (h : s.close = CloseKind.normal) :
    ∃ l : List String,
      (basic_transcribe audio (Except.ok s)).value = Except.ok l ∧
      "" ∉ l ∧
      (handleEventsText s.events = "" → l = []) ∧
      strConcat l = handleEventsText s.events := by
  have hh := handle_events_normal s h
  have hval : (basic_transcribe audio (Except.ok s)).value
      = Except.ok (pyFilterTruthy [none, some (handleEventsText s.events)]) := by
    simp [basic_transcribe, hh, write_chunks]
  rw [pyFilterTruthy_pair] at hval
  by_cases ht : handleEventsText s.events = ""
  · rw [if_pos ht] at hval
    exact ⟨[], hval, by simp, fun _ => rfl, by simp [strConcat, ht]⟩
  · rw [if_neg ht] at hval
    refine ⟨[handleEventsText s.events], hval, ?_, fun hc => absurd hc ht,
      strConcat_singleton _⟩
    simp only [List.mem_singleton]
    exact fun hc => ht hc.symm

theorem claim_C9_witness :
    ∃ l : List String,
      (basic_transcribe [] (Except.ok c9Stream)).value = Except.ok l ∧
      "" ∉ l ∧
      (handleEventsText c9Stream.events = "" → l = []) ∧
      strConcat l = handleEventsText c9Stream.events :=
  claim_C9 [] c9Stream rfl

/-- Claim C10: every call to `transcribe_fn`, whatever its inputs and
whatever the environment held before, leaves the process environment with
AWS_ACCESS_KEY_ID, AWS_SECRET_ACCESS_KEY and AWS_SESSION_TOKEN overwritten
by the frozen credential values of the ambient session (and touches no other
variable); the overwrite persists in the environment the call returns. -/
theorem claim_C10 (language : String) (creds : Credentials) (response : List String)
    (translateFn : String → String → String → String)
    (pollyFn : String → PollyParam → String) (env0 : Env) :
    (transcribe_fn language creds response translateFn pollyFn env0).env.AWS_ACCESS_KEY_ID
        = some creds.access_key ∧
    (transcribe_fn language creds response translateFn pollyFn env0).env.AWS_SECRET_ACCESS_KEY
        = some creds.secret_key ∧
    (transcribe_fn language creds response translateFn pollyFn env0).env.AWS_SESSION_TOKEN
        = some creds.token ∧
    (transcribe_fn language creds response translateFn pollyFn env0).env.other
        = env0.other :=
  ⟨rfl, rfl, rfl, rfl⟩

end App
